import Mathlib

/-
Verification of the resilient API client layer of TACC/data_wrangler,
src/redcap_export/redcapy.py: constructor validation and token masking,
per-operation parameter whitelisting, exponential-backoff retry control,
and classification of HTTP responses into the call outcomes the client
returns (parsed JSON, raw text, bare URL string, boolean, failure).

The Python code is shallowly embedded. Python dicts of string keys and
values become association lists with Python's update semantics; Python
values returned by the client become the PyVal sum; a raised exception
inside the retried attempt becomes Attempt.exn; machine-level aspects
(sockets, sleeping) are modelled by recording the transmitted parameter
maps and the sequence of sleep durations.
-/

namespace DataWrangler

/-- JSON values, modelling the shapes produced by Python's json.loads for
the payloads this client handles. Numbers are modelled as integers (the
client's tested payloads are record counts and field dictionaries);
a float literal simply fails to parse in the model, which is the same
observable branch as any other unparseable body. -/
inductive J where
  | null : J
  | bool : Bool → J
  | num : Int → J
  | str : String → J
  | arr : List J → J
  | obj : List (String × J) → J

/-- Values a client call can produce, mirroring the union of return types of
Redcapy._core_api_code: True/False, a raw or extracted string, a parsed
JSON value, and Python's None (returned by the pass-bodied export_file). -/
inductive PyVal where
  | bool : Bool → PyVal
  | str : String → PyVal
  | json : J → PyVal
  | pynone : PyVal

/-- Python truthiness of a JSON value (empty containers, 0, "", false and
null are falsy). -/
def jFalsy : J → Bool
  | J.null => true
  | J.bool b => !b
  | J.num n => n == 0
  | J.str s => s == ""
  | J.arr xs => xs.isEmpty
  | J.obj ms => ms.isEmpty

/-- Python truthiness of a client return value: None, False, "" and empty
or zero JSON values are falsy. Callers of this client detect failure by
truthiness, per the module docstring. -/
def isFalsy : PyVal → Bool
  | PyVal.bool b => !b
  | PyVal.str s => s == ""
  | PyVal.json j => jFalsy j
  | PyVal.pynone => true

/-- Whitespace skipping for the JSON reader (space, tab, newline, return). -/
def skipWs : List Char → List Char
  | c :: cs => if c == ' ' || c == '\n' || c == '\t' || c == '\r' then skipWs cs else c :: cs
  | [] => []

/-- Reads the characters of a JSON string literal after the opening quote,
returning the decoded characters and the input following the closing
quote. The common escapes are decoded. -/
def strChars : List Char → Option (List Char × List Char)
  | [] => Option.none
  | '"' :: rest => some ([], rest)
  | ['\\'] => Option.none
  | '\\' :: e :: rest =>
      let c? : Option Char :=
        if e == '"' then some '"'
        else if e == '\\' then some '\\'
        else if e == '/' then some '/'
        else if e == 'n' then some '\n'
        else if e == 't' then some '\t'
        else if e == 'r' then some '\r'
        else Option.none
      match c? with
      | some c =>
        match strChars rest with
        | some (acc, r) => some (c :: acc, r)
        | Option.none => Option.none
      | Option.none => Option.none
  | c :: rest =>
      match strChars rest with
      | some (acc, r) => some (c :: acc, r)
      | Option.none => Option.none

/-- Value of a decimal digit string. -/
def digitsVal (ds : List Char) : Nat :=
  ds.foldl (fun acc c => acc * 10 + (c.toNat - '0'.toNat)) 0

/-- Reads an optionally negated integer literal. -/
def parseNum : List Char → Option (Int × List Char)
  | '-' :: cs =>
      let p := cs.span Char.isDigit
      if p.1.isEmpty then Option.none else some (-(Int.ofNat (digitsVal p.1)), p.2)
  | cs =>
      let p := cs.span Char.isDigit
      if p.1.isEmpty then Option.none else some (Int.ofNat (digitsVal p.1), p.2)

mutual

/-- Recursive-descent JSON reader (fuel-indexed so that recursion is
structural); models Python's json.loads on the payload shapes above. -/
def parseJ : Nat → List Char → Option (J × List Char)
  | 0, _ => Option.none
  | Nat.succ fuel, cs =>
    match skipWs cs with
    | 'n' :: 'u' :: 'l' :: 'l' :: rest => some (J.null, rest)
    | 't' :: 'r' :: 'u' :: 'e' :: rest => some (J.bool true, rest)
    | 'f' :: 'a' :: 'l' :: 's' :: 'e' :: rest => some (J.bool false, rest)
    | '"' :: rest =>
      match strChars rest with
      | some (s, r) => some (J.str (String.mk s), r)
      | Option.none => Option.none
    | '[' :: rest =>
      (match skipWs rest with
       | ']' :: r2 => some (J.arr [], r2)
       | _ =>
         match parseItems fuel rest with
         | some (vs, r2) => some (J.arr vs, r2)
         | Option.none => Option.none)
    | '\x7b' :: rest =>
      (match skipWs rest with
       | '\x7d' :: r2 => some (J.obj [], r2)
       | _ =>
         match parseMembers fuel rest with
         | some (ms, r2) => some (J.obj ms, r2)
         | Option.none => Option.none)
    | c :: rest =>
      if c == '-' || c.isDigit then
        match parseNum (c :: rest) with
        | some (n, r) => some (J.num n, r)
        | Option.none => Option.none
      else Option.none
    | [] => Option.none

/-- Comma-separated array items up to the closing bracket. -/
def parseItems : Nat → List Char → Option (List J × List Char)
  | 0, _ => Option.none
  | Nat.succ fuel, cs =>
    match parseJ fuel cs with
    | some (v, rest) =>
      (match skipWs rest with
       | ',' :: r2 =>
         match parseItems fuel r2 with
         | some (vs, r3) => some (v :: vs, r3)
         | Option.none => Option.none
       | ']' :: r2 => some ([v], r2)
       | _ => Option.none)
    | Option.none => Option.none

/-- Comma-separated object members up to the closing brace. -/
def parseMembers : Nat → List Char → Option (List (String × J) × List Char)
  | 0, _ => Option.none
  | Nat.succ fuel, cs =>
    match skipWs cs with
    | '"' :: rest =>
      (match strChars rest with
       | some (k, r1) =>
         (match skipWs r1 with
          | ':' :: r2 =>
            (match parseJ fuel r2 with
             | some (v, r3) =>
               (match skipWs r3 with
                | ',' :: r4 =>
                  (match parseMembers fuel r4 with
                   | some (ms, r5) => some ((String.mk k, v) :: ms, r5)
                   | Option.none => Option.none)
                | '\x7d' :: r4 => some ([(String.mk k, v)], r4)
                | _ => Option.none)
             | Option.none => Option.none)
          | _ => Option.none)
       | Option.none => Option.none)
    | _ => Option.none

end

/-- Model of Python's json.loads: parse a whole string as one JSON value
(trailing whitespace allowed); any leftover input is a parse failure. -/
def loads (s : String) : Option J :=
  match parseJ (2 * s.length + 2) s.data with
  | some (v, rest) => if skipWs rest = [] then some v else Option.none
  | Option.none => Option.none

/-- Serialization of one character of a JSON string, with the escapes
json.dumps emits for the payloads in scope. -/
def escChar (c : Char) : String :=
  if c == '"' then "\\\""
  else if c == '\\' then "\\\\"
  else if c == '\n' then "\\n"
  else if c == '\t' then "\\t"
  else if c == '\r' then "\\r"
  else String.mk [c]

/-- String-content serialization for dumps. -/
def escapeStr (s : String) : String := String.join (s.data.map escChar)

mutual

/-- Model of Python's json.dumps with its default separators
(comma-space between elements, colon-space inside members). -/
def dumps : J → String
  | J.null => "null"
  | J.bool true => "true"
  | J.bool false => "false"
  | J.num n => toString n
  | J.str s => "\"" ++ escapeStr s ++ "\""
  | J.arr xs => "[" ++ dumpsItems xs ++ "]"
  | J.obj ms => "\x7b" ++ dumpsMembers ms ++ "\x7d"

/-- Array elements of dumps, separated by comma-space. -/
def dumpsItems : List J → String
  | [] => ""
  | [x] => dumps x
  | x :: y :: xs => dumps x ++ ", " ++ dumpsItems (y :: xs)

/-- Object members of dumps, separated by comma-space. -/
def dumpsMembers : List (String × J) → String
  | [] => ""
  | [m] => "\"" ++ escapeStr m.1 ++ "\": " ++ dumps m.2
  | m :: m2 :: ms =>
      "\"" ++ escapeStr m.1 ++ "\": " ++ dumps m.2 ++ ", " ++ dumpsMembers (m2 :: ms)

end

/-- Subscripting a parsed JSON object by key, as Python's d[key] on the dict
json.loads builds: later duplicate keys win; a missing key or a non-object
raises, which the caller's surrounding try turns into the failure branch,
so it is modelled as Option.none here. -/
def jGet : J → String → Option J
  | J.obj ms, k => ms.foldl (fun acc m => if m.1 == k then some m.2 else acc) Option.none
  | _, _ => Option.none

/-- Client state after a successful construction. The source keeps the
masked token in the public api_token attribute (swapped in place by the
attrs validator) and the raw token in the private _redcap_token. -/
structure Redcapy where
  api_token : String
  _redcap_token : String
  redcap_url : String

/-- Token masking performed by the api_token validator check_and_mask_token
(redcapy.py lines 30-45): first 3 characters, the fixed mask, and the last
2 characters, with Python's clamping slice semantics (t[:3] and t[-2:]). -/
def check_and_mask_token (t : String) : String :=
  String.mk (t.data.take 3 ++ "***...***".data ++ t.data.drop (t.data.length - 2))

/-- Modelled from the spec: the URL-well-formedness check called at
construction is validator_collection.checkers.is_url, a third-party
function whose code is not in this repository. Per the spec a well-formed
URL carries an explicit http or https scheme followed by a non-empty
remainder (a bare domain without a scheme fails), and contains no invalid
characters such as spaces or angle brackets. -/
def checkers_is_url (s : String) : Bool :=
  ("http://".data.isPrefixOf s.data || "https://".data.isPrefixOf s.data)
    && !(s.data.drop (if "https://".data.isPrefixOf s.data then 8 else 7)).isEmpty
    && s.data.all (fun c => !(c == ' ' || c == '<' || c == '>' || c == '"'))

/-- Construction of a Redcapy client. attrs runs the api_token validator
(empty-token check, then the mask swap) and then the redcap_url validator
(the is_url check), each raising ValueError; modelled as Except so that a
raised validation error is the error branch. The is_url predicate is a
parameter, instantiated with checkers_is_url where a concrete check is
needed. Construction performs no network traffic: it only assigns the
three fields. -/
def mkRedcapy (is_url : String → Bool) (api_token redcap_url : String) :
    Except String Redcapy :=
  if api_token = "" then
    Except.error "Must provide token to initialize Redcapy instance"
  else if is_url redcap_url then
    Except.ok ⟨check_and_mask_token api_token, api_token, redcap_url⟩
  else
    Except.error ("Invalid URL format detected for \"" ++ redcap_url ++
      "\" when initializing Redcapy instance")

/-- Character class of the first alternative of the URL regex in _find_url:
letters, digits, and the character range from dollar (0x24) to underscore
(0x5F), which subsumes the extra characters listed in the class. -/
def isUrlChar (c : Char) : Bool :=
  ('a' ≤ c && c ≤ 'z') || ('A' ≤ c && c ≤ 'Z') || ('0' ≤ c && c ≤ '9') ||
    (0x24 ≤ c.toNat && c.toNat ≤ 0x5F)

/-- Characters the regex accepts between two literal spaces. -/
def isSpacedPunct (c : Char) : Bool :=
  c == '!' || c == ' ' || c == '*' || c == '(' || c == ')' || c == ','

/-- Hexadecimal digit test for the percent-escape alternative. -/
def hexDigit (c : Char) : Bool :=
  c.isDigit || ('a' ≤ c && c ≤ 'f') || ('A' ≤ c && c ≤ 'F')

/-- Third alternative of the repeated group: two spaces, a percent sign and
two hexadecimal digits. -/
def hexUnit : List Char → Option (List Char × List Char)
  | ' ' :: ' ' :: '%' :: h1 :: h2 :: r =>
    if hexDigit h1 && hexDigit h2 then some ([' ', ' ', '%', h1, h2], r) else Option.none
  | _ => Option.none

/-- One repetition of the regex group, trying the alternatives in the
regex's order: a single allowed character, a spaced punctuation character,
or the percent-escape form. -/
def urlUnit (cs : List Char) : Option (List Char × List Char) :=
  match cs with
  | c :: rest =>
    if isUrlChar c then some ([c], rest)
    else
      match cs with
      | ' ' :: d :: ' ' :: r2 =>
        if isSpacedPunct d then some ([' ', d, ' '], r2) else hexUnit cs
      | _ => hexUnit cs
  | [] => Option.none

/-- Greedy repetition of the group (the regex's plus, with nothing after
it, consumes units until none matches). -/
def munchUnits : Nat → List Char → List Char × List Char
  | 0, cs => ([], cs)
  | fuel + 1, cs =>
    match urlUnit cs with
    | some (u, rest) =>
      let p := munchUnits fuel rest
      (u ++ p.1, p.2)
    | Option.none => ([], cs)

/-- Match of the whole URL pattern anchored at the current position: the
http or https scheme with its separator, then at least one unit. -/
def urlMatchAt (cs : List Char) : Option (List Char) :=
  let p? : Option (List Char × List Char) :=
    if "https://".data.isPrefixOf cs then some ("https://".data, cs.drop 8)
    else if "http://".data.isPrefixOf cs then some ("http://".data, cs.drop 7)
    else Option.none
  match p? with
  | some (pre, rest) =>
    let m := munchUnits rest.length rest
    if m.1.isEmpty then Option.none else some (pre ++ m.1)
  | Option.none => Option.none

/-- Leftmost match scan, as re.findall's first element. -/
def findUrlScan : List Char → Option (List Char)
  | [] => Option.none
  | c :: rest =>
    match urlMatchAt (c :: rest) with
    | some m => some m
    | Option.none => findUrlScan rest

/-- Redcapy._find_url (redcapy.py lines 260-272): the first URL substring
the pattern finds, or the empty string when there is none. -/
def find_url (s : String) : String :=
  match findUrlScan s.data with
  | some m => String.mk m
  | Option.none => ""

/-- Modelled from the spec: the XML error extraction on a non-JSON body is
done by the third-party BeautifulSoup library (return_soup.hash.error),
whose code is not in this repository. Modelled as the text between the
first error opening tag and the following closing tag; absence of either
is the failed-extraction branch (AttributeError in the source). -/
def dropThrough (tag : List Char) : List Char → Option (List Char)
  | c :: rest =>
    if tag.isPrefixOf (c :: rest) then some ((c :: rest).drop tag.length)
    else dropThrough tag rest
  | [] => Option.none

/-- Text before the first occurrence of the tag, when the tag occurs. -/
def takeUntil (tag : List Char) : List Char → Option (List Char)
  | c :: rest =>
    if tag.isPrefixOf (c :: rest) then some []
    else (takeUntil tag rest).map (fun l => c :: l)
  | [] => Option.none

/-- Modelled from the spec: extraction of the XML-shaped error field, see
dropThrough. -/
def xml_hash_error (text : String) : Option String :=
  match dropThrough "<error>".data text.data with
  | some rest => (takeUntil "</error>".data rest).map String.mk
  | Option.none => Option.none

/-- Error message of the 400 special case in _core_api_code. -/
def no_file_msg : String := "There is no file to delete for this record"

/-- Condition of the 400 special case: the body parses as JSON, subscripting
it by "error" succeeds, and the value equals the literal message. Any
raised step (unparseable body, missing key, non-object) is caught by the
surrounding try and lands in the failure branch, hence false here. -/
def is_no_file_error (text : String) : Bool :=
  match loads text with
  | some j =>
    match jGet j "error" with
    | some (J.str s) => s == no_file_msg
    | _ => false
  | Option.none => false

/-- Classification a single _core_api_code attempt performs on the HTTP
response it received (redcapy.py lines 197-251), in the source's order:
the 400 no-file-to-delete special case returns True; any other non-200
status returns False (the printed message, built from xml_hash_error or
the raw body, does not affect the returned value); on 200, a non-empty
body equal to its own first URL match is returned as that string; an empty
body of a delete-file call is True; then a JSON parse is attempted unless
this is a file import with an empty body, falling back to the XML error
text and then to the raw body; a file import with an empty body is True. -/
def core_api_code (status : Nat) (text : String) (is_import_file is_delete_file : Bool) :
    PyVal :=
  if status = 400 ∧ is_no_file_error text = true then PyVal.bool true
  else if status ≠ 200 then PyVal.bool false
  else if text ≠ "" ∧ find_url text = text then PyVal.str text
  else if is_delete_file = true ∧ text.length = 0 then PyVal.bool true
  else if (text.length > 0 ∧ is_import_file = true) ∨ is_import_file = false then
    match loads text with
    | some j => PyVal.json j
    | Option.none =>
      match xml_hash_error text with
      | some e => PyVal.str e
      | Option.none => PyVal.str text
  else PyVal.bool true

/-- One whole attempt: a network-level fault while posting (requests.post
raising) is caught and returns False; otherwise the response is
classified. -/
def core_api_attempt (resp : Option (Nat × String)) (is_import_file is_delete_file : Bool) :
    PyVal :=
  match resp with
  | some r => core_api_code r.1 r.2 is_import_file is_delete_file
  | Option.none => PyVal.bool false

/-- Redcapy.retry_keys (redcapy.py line 28): retry-control keys accepted by
every operation's whitelist in addition to its own keys. -/
def retry_keys : List String := ["limit", "wait_secs", "backoff", "logger"]

/-- Public operations of the facade, one per method building a post_data
dict in redcapy.py. -/
inductive Operation where
  | export_events
  | export_data_dictionary
  | export_survey_link
  | export_survey_participants
  | export_records
  | import_records
  | delete_record
  | delete_form
  | import_file
deriving DecidableEq

/-- Allowed override keys per operation, transcribed from each method's
whitelist test (the list literal each method appends self.retry_keys to). -/
def allowedKeys : Operation → List String
  | Operation.export_events =>
      ["token", "content", "format", "arms", "returnFormat"] ++ retry_keys
  | Operation.export_data_dictionary =>
      ["token", "content", "format", "fields", "forms", "returnFormat"] ++ retry_keys
  | Operation.export_survey_link =>
      ["token", "content", "format", "returnFormat"] ++ retry_keys
  | Operation.export_survey_participants =>
      ["token", "content", "format", "returnFormat"] ++ retry_keys
  | Operation.export_records =>
      ["fields", "forms", "events", "records", "token", "content", "format", "type",
        "rawOrLabel", "rawOrLabelHeaders", "exportCheckboxLabel", "exportSurveyFields",
        "exportDataAccessGroups", "returnFormat"] ++ retry_keys
  | Operation.import_records =>
      ["token", "content", "format", "type", "overwriteBehavior", "data", "dateFormat",
        "returnContent", "returnFormat"] ++ retry_keys
  | Operation.delete_record => ["token", "content", "records[0]", "arm"] ++ retry_keys
  | Operation.delete_form =>
      ["token", "content", "action", "records[0]", "field", "event", "repeat_instance"]
        ++ retry_keys
  | Operation.import_file =>
      ["token", "content", "format", "action", "record", "field", "event", "returnContent",
        "file"] ++ retry_keys

/-- Positional arguments the facade methods splice into their default
parameter maps. -/
structure OpArgs where
  instrument : String := ""
  event : String := ""
  record : String := ""
  id : String := ""
  field : String := ""
  repeat_instance : String := ""
  data : String := ""
  filename : String := ""

/-- Default post_data map per operation, transcribed from each method's
post_data literal. import_file appends repeat_instance only when the
argument is truthy, as the source does. -/
def defaultParams (tok : String) (a : OpArgs) : Operation → List (String × String)
  | Operation.export_events =>
      [("token", tok), ("content", "event"), ("format", "json"), ("returnFormat", "json")]
  | Operation.export_data_dictionary =>
      [("token", tok), ("content", "metadata"), ("format", "json"), ("returnFormat", "json")]
  | Operation.export_survey_link =>
      [("token", tok), ("content", "surveyLink"), ("format", "json"),
        ("instrument", a.instrument), ("event", a.event), ("record", a.record),
        ("returnFormat", "json")]
  | Operation.export_survey_participants =>
      [("token", tok), ("content", "participantList"), ("format", "json"),
        ("instrument", a.instrument), ("event", a.event), ("returnFormat", "json")]
  | Operation.export_records =>
      [("token", tok), ("content", "record"), ("format", "json"), ("type", "flat"),
        ("rawOrLabel", "raw"), ("rawOrLabelHeaders", "raw"), ("exportCheckboxLabel", "false"),
        ("exportSurveyFields", "false"), ("exportDataAccessGroups", "false"),
        ("returnFormat", "json")]
  | Operation.import_records =>
      [("token", tok), ("content", "record"), ("format", "json"), ("type", "flat"),
        ("overwriteBehavior", "normal"), ("data", a.data), ("dateFormat", "YMD"),
        ("returnContent", "count"), ("returnFormat", "json")]
  | Operation.delete_record =>
      [("token", tok), ("action", "delete"), ("content", "record"), ("records[0]", a.id)]
  | Operation.delete_form =>
      [("token", tok), ("content", "file"), ("action", "delete"), ("record", a.id),
        ("field", a.field), ("event", a.event), ("repeat_instance", a.repeat_instance)]
  | Operation.import_file =>
      [("token", tok), ("content", "file"), ("format", "json"), ("action", "import"),
        ("record", a.record), ("field", a.field), ("event", a.event),
        ("returnFormat", "json"), ("file", a.filename)]
        ++ (if a.repeat_instance ≠ "" then [("repeat_instance", a.repeat_instance)] else [])

/-- Python dict assignment d[k] = v on an association list whose keys are
unique (as all the default maps are): replace the value in place when the
key is present, append the pair otherwise. -/
def setKey : List (String × String) → String → String → List (String × String)
  | [], k, v => [(k, v)]
  | p :: m, k, v => if p.1 == k then (k, v) :: m else p :: setKey m k v

/-- The kwargs loop every facade method runs over caller overrides: a key
in the operation's allowed list is assigned into post_data; any other key
is dropped and a warning line "key is not a valid key" is printed. The
result is the final map together with the warnings printed. -/
def applyKwargs (allowed : List String) :
    List (String × String) → List (String × String) → List (String × String) × List String
  | post, [] => (post, [])
  | post, (k, v) :: rest =>
    if k ∈ allowed then applyKwargs allowed (setKey post k v) rest
    else
      let r := applyKwargs allowed post rest
      (r.1, (k ++ " is not a valid key") :: r.2)

/-- Python dict lookup d.get(k) on an association list with unique keys. -/
def lookupKV (m : List (String × String)) (k : String) : Option String :=
  (m.find? (fun p => p.1 == k)).map (fun p => p.2)

/-- Parameter map an operation transmits (before operation-specific
post-processing such as import_records' data wrapping), with the warnings
printed while merging. -/
def buildPostData (op : Operation) (tok : String) (a : OpArgs)
    (kw : List (String × String)) : List (String × String) × List String :=
  applyKwargs (allowedKeys op) (defaultParams tok a op) kw

/-- post_data of import_records after the kwargs merge and before the JSON
wrapping step (redcapy.py lines 646-677). -/
def import_records_merged (tok data_to_upload : String)
    (kw : List (String × String)) : List (String × String) :=
  (applyKwargs (allowedKeys Operation.import_records)
    (defaultParams tok { data := data_to_upload } Operation.import_records) kw).1

/-- Transmitted post_data of import_records (redcapy.py lines 679-694):
when the merged format is "json" and data_to_upload does not begin with a
bracket, a successful parse replaces the data field with the dump of the
one-element array around the parsed value; a parse failure, a leading
bracket, or a non-json format leaves the merged map unchanged. -/
def import_records_post (tok data_to_upload : String)
    (kw : List (String × String)) : List (String × String) :=
  if lookupKV (import_records_merged tok data_to_upload kw) "format" = some "json" then
    if data_to_upload.take 1 ≠ "[" then
      match loads data_to_upload with
      | some v =>
        setKey (import_records_merged tok data_to_upload kw) "data" (dumps (J.arr [v]))
      | Option.none => import_records_merged tok data_to_upload kw
    else import_records_merged tok data_to_upload kw
  else import_records_merged tok data_to_upload kw

/-- Branch import_file takes on its action override
(redcapy.py lines 860-866). -/
inductive FileDispatch where
  | core_delete
  | unimplemented_export
  | core_import

/-- Dispatch of import_file on kwargs: action delete calls the core with
delete_file set, action export prints a message and returns False before
any network call, anything else calls the core with import_file set. -/
def import_file_dispatch (kw : List (String × String)) : FileDispatch :=
  match lookupKV kw "action" with
  | some a =>
    if a = "delete" then FileDispatch.core_delete
    else if a = "export" then FileDispatch.unimplemented_export
    else FileDispatch.core_import
  | Option.none => FileDispatch.core_import

/-- Result of an import_file call together with the number of core API
calls (network submissions) it makes; net is the value the core call would
return when one is made. -/
def import_file_call (net : PyVal) (kw : List (String × String)) : PyVal × Nat :=
  match import_file_dispatch kw with
  | FileDispatch.core_delete => (net, 1)
  | FileDispatch.unimplemented_export => (PyVal.bool false, 0)
  | FileDispatch.core_import => (net, 1)

/-- Redcapy.export_file (redcapy.py lines 868-875): the body is pass, so
every call returns Python's None and makes no network call; the delegation
to import_file is commented out in the source. -/
def export_file (record_id fieldname eventname : String)
    (repeat_instance : Option String) : PyVal × Nat :=
  (PyVal.pynone, 0)

/-- Outcome of one invocation of the function wrapped by the retry
decorator: a returned value, or a raised fault. -/
inductive Attempt where
  | val : PyVal → Attempt
  | exn : Attempt

/-- Failure test of the retry loop: a raised fault is caught by the
blanket except, and a returned boolean False is turned into a raise
(isinstance(rv, bool) and not rv) and caught by the same except. Every
other returned value is a success and is returned immediately. -/
def isFail : Attempt → Bool
  | Attempt.exn => true
  | Attempt.val (PyVal.bool false) => true
  | Attempt.val _ => false

/-- Observable behaviour of one call through the retry controller: the
terminal outcome (the value returned, or the fault the final unguarded
call lets propagate), the sleep durations in order, and how many times the
wrapped function was invoked. -/
structure RunResult where
  result : Attempt
  sleeps : List Nat
  calls : Nat

/-- The while loop of f_retry_wrapper (redcapy.py lines 89-128), with the
wrapped function modelled as a map from invocation index to outcome.
While mtries exceeds 1: invoke; a non-failing result returns at once; a
failure decrements mtries, sleeps mdelay and multiplies mdelay by the
backoff factor. When mtries reaches 1 (or started at or below 1) one
final unguarded invocation is made and its outcome is passed through
verbatim, a raised fault propagating. -/
def f_retry_loop (backoff : Nat) (f : Nat → Attempt) : Nat → Nat → Nat → RunResult
  | 0, _, idx => ⟨f idx, [], 1⟩
  | 1, _, idx => ⟨f idx, [], 1⟩
  | n + 2, mdelay, idx =>
    if isFail (f idx) then
      let r := f_retry_loop backoff f (n + 1) (mdelay * backoff) (idx + 1)
      ⟨r.result, mdelay :: r.sleeps, r.calls + 1⟩
    else ⟨f idx, [], 1⟩

/-- Keyword arguments the wrapper inspects. The source reads limit and
wait_secs from kwargs with the decorator defaults as fallback; the line
reading backoff (mbackoff = kwargs.get('backoff', backoff), line 87) is
commented out, so the backoff field is carried but never read. -/
structure RetryKwargs where
  limit : Option Nat := Option.none
  wait_secs : Option Nat := Option.none
  backoff : Option Nat := Option.none

/-- Entry of the retry wrapper as decorated on _core_api_code: the
decoration site _Decorators.retry(Exception) leaves the defaults
limit=4, wait_secs=3 and backoff=2, and the loop multiplies the delay by
the decorator's backoff parameter, which is therefore always 2. -/
def f_retry_wrapper (kw : RetryKwargs) (f : Nat → Attempt) : RunResult :=
  f_retry_loop 2 f (kw.limit.getD 4) (kw.wait_secs.getD 3) 0

/-- Redcapy._check_args (redcapy.py lines 274-292): the export methods
clamp their limit to at least 1 and their wait_secs to at least 0 before
passing them to the core (a negative wait is replaced by 1). -/
def check_args (limit : Int) (wait_secs : Int) : Nat × Nat :=
  ((if limit < 1 then 1 else limit).toNat, (if wait_secs < 0 then 1 else wait_secs).toNat)

/-- Geometric delay sequences: prepending the current delay to the sequence
started at the multiplied delay is the sequence started at the current
delay, one element longer. -/
theorem geom_cons (b W m : Nat) :
    (List.range (m + 1)).map (fun i => W * b ^ i) =
      W :: (List.range m).map (fun i => W * b * b ^ i) := by
  rw [List.range_succ_eq_map, List.map_cons, List.map_map]
  simp [Function.comp_def, pow_succ, mul_comm, mul_assoc, mul_left_comm]

/-- When the first n invocations from idx all fail, a loop entered with
n + 1 tries makes n failing guarded invocations and one final unguarded
one, returning that final outcome verbatim with the geometric sleeps. -/
theorem f_retry_loop_all_fail (b : Nat) (f : Nat → Attempt) (n W idx : Nat)
    (hfail : ∀ i, i < n → isFail (f (idx + i)) = true) :
    f_retry_loop b f (n + 1) W idx =
      ⟨f (idx + n), (List.range n).map (fun i => W * b ^ i), n + 1⟩ := by
  induction n generalizing W idx with
  | zero => simp [f_retry_loop]
  | succ m ih =>
    have h0 : isFail (f idx) = true := by simpa using hfail 0 (by omega)
    have hrec := ih (W * b) (idx + 1) (fun i hi => by
      have h := hfail (i + 1) (by omega)
      have he : idx + 1 + i = idx + (i + 1) := by omega
      rwa [he])
    show f_retry_loop b f (m + 1 + 1) W idx = _
    rw [show m + 1 + 1 = m + 2 from rfl]
    rw [f_retry_loop]
    simp only [h0, if_true, hrec, geom_cons]
    have he : idx + 1 + m = idx + (m + 1) := by omega
    simp [he]

/-- When the first K invocations from idx fail and invocation K succeeds,
a loop entered with more than K tries returns the successful outcome after
exactly K + 1 invocations and the geometric sleeps of the K failures. -/
theorem f_retry_loop_success (b : Nat) (f : Nat → Attempt) (K L W idx : Nat)
    (hKL : K < L)
    (hfail : ∀ i, i < K → isFail (f (idx + i)) = true)
    (hsucc : isFail (f (idx + K)) = false) :
    f_retry_loop b f L W idx =
      ⟨f (idx + K), (List.range K).map (fun i => W * b ^ i), K + 1⟩ := by
  induction K generalizing L W idx with
  | zero =>
    simp only [Nat.add_zero] at hsucc
    match L, hKL with
    | 1, _ => simp [f_retry_loop]
    | n + 2, _ => simp [f_retry_loop, hsucc]
  | succ k ih =>
    match L, hKL with
    | n + 2, hKL =>
      have h0 : isFail (f idx) = true := by simpa using hfail 0 (by omega)
      have hrec := ih (n + 1) (W * b) (idx + 1) (by omega)
        (fun i hi => by
          have h := hfail (i + 1) (by omega)
          have he : idx + 1 + i = idx + (i + 1) := by omega
          rwa [he])
        (by
          have he : idx + 1 + k = idx + (k + 1) := by omega
          rwa [he])
      rw [f_retry_loop]
      simp only [h0, if_true, hrec, geom_cons]
      have he : idx + 1 + k = idx + (k + 1) := by omega
      simp [he]

/-- Whatever the wrapped function does, the sleeps of a run form an initial
segment of the geometric sequence W, W * b, W * b ^ 2, and so on. -/
theorem f_retry_loop_sleeps_geom_aux (b : Nat) (f : Nat → Attempt) (L W idx : Nat) :
    ∃ k, (f_retry_loop b f L W idx).sleeps = (List.range k).map (fun i => W * b ^ i) := by
  induction L generalizing W idx with
  | zero => exact ⟨0, by simp [f_retry_loop]⟩
  | succ m ih =>
    match m with
    | 0 => exact ⟨0, by simp [f_retry_loop]⟩
    | n + 1 =>
      by_cases h : isFail (f idx) = true
      · obtain ⟨k, hk⟩ := ih (W * b) (idx + 1)
        refine ⟨k + 1, ?_⟩
        show (f_retry_loop b f (n + 2) W idx).sleeps = _
        rw [f_retry_loop]
        simp only [h, if_true, geom_cons]
        simp [hk]
      · refine ⟨0, ?_⟩
        show (f_retry_loop b f (n + 2) W idx).sleeps = _
        rw [f_retry_loop]
        simp [h]

/-- Two wrapped functions that agree failure-for-failure (one failing by
returning False where the other raises) and success-for-success drive the
loop through the same sleeps and the same number of invocations. -/
theorem f_retry_loop_fail_modes (b : Nat) (g1 g2 : Nat → Attempt) (L W idx : Nat)
    (h : ∀ i, (g1 i = Attempt.val (PyVal.bool false) ∧ g2 i = Attempt.exn) ∨
      (g1 i = g2 i ∧ isFail (g1 i) = false)) :
    (f_retry_loop b g1 L W idx).sleeps = (f_retry_loop b g2 L W idx).sleeps ∧
      (f_retry_loop b g1 L W idx).calls = (f_retry_loop b g2 L W idx).calls := by
  induction L generalizing W idx with
  | zero => simp [f_retry_loop]
  | succ m ih =>
    match m with
    | 0 => simp [f_retry_loop]
    | n + 1 =>
      show (f_retry_loop b g1 (n + 2) W idx).sleeps
          = (f_retry_loop b g2 (n + 2) W idx).sleeps ∧ _
      rw [f_retry_loop, f_retry_loop]
      rcases h idx with ⟨h1, h2⟩ | ⟨h12, hs⟩
      · have f1 : isFail (g1 idx) = true := by rw [h1]; rfl
        have f2 : isFail (g2 idx) = true := by rw [h2]; rfl
        have := ih (W * b) (idx + 1)
        simp only [f1, f2, if_true]
        simpa using this
      · have hs2 : isFail (g2 idx) = false := by rw [← h12]; exact hs
        simp [hs, hs2]

/-- Lookup on a consed association list. -/
theorem lookupKV_cons (p : String × String) (m : List (String × String)) (k : String) :
    lookupKV (p :: m) k = if p.1 == k then some p.2 else lookupKV m k := by
  by_cases h : p.1 == k
  · simp [lookupKV, List.find?_cons_of_pos, h]
  · simp only [h, if_false, Bool.false_eq_true]
    rw [lookupKV, List.find?_cons_of_neg _ (by simp_all), lookupKV]

/-- Assignment never removes a key from the map. -/
theorem keys_setKey_superset (m : List (String × String)) (k v a : String)
    (h : a ∈ m.map Prod.fst) : a ∈ (setKey m k v).map Prod.fst := by
  induction m with
  | nil => simp at h
  | cons p rest ih =>
    rw [setKey]
    simp only [List.map_cons, List.mem_cons] at h
    by_cases hp : p.1 == k
    · have hp1 : p.1 = k := by simpa using hp
      rcases h with h | h
      · simp [hp, h, hp1.symm]
      · simp only [hp, if_true, List.map_cons, List.mem_cons]
        exact Or.inr h
    · simp only [hp, Bool.false_eq_true, if_false, List.map_cons, List.mem_cons]
      rcases h with h | h
      · exact Or.inl h
      · exact Or.inr (ih h)

/-- The kwargs merge never removes a key from the map it starts from. -/
theorem keys_applyKwargs_superset (allowed : List String) (kw post : List (String × String))
    (a : String) (h : a ∈ post.map Prod.fst) :
    a ∈ (applyKwargs allowed post kw).1.map Prod.fst := by
  induction kw generalizing post with
  | nil => exact h
  | cons p rest ih =>
    rw [applyKwargs]
    split
    · exact ih _ (keys_setKey_superset _ _ _ _ h)
    · exact ih _ h

/-- Assignment makes the assigned key map to the assigned value. -/
theorem lookupKV_setKey_self (m : List (String × String)) (k v : String) :
    lookupKV (setKey m k v) k = some v := by
  induction m with
  | nil => simp [setKey, lookupKV, List.find?_cons_of_pos]
  | cons p rest ih =>
    rw [setKey]
    by_cases hp : p.1 == k
    · simp [hp, lookupKV, List.find?_cons_of_pos]
    · simp only [hp, Bool.false_eq_true, if_false]
      rw [lookupKV_cons]
      simp [hp, ih]

/-- Assignment leaves every other key's value unchanged. -/
theorem lookupKV_setKey_ne (m : List (String × String)) (k k2 v : String) (h : k2 ≠ k) :
    lookupKV (setKey m k v) k2 = lookupKV m k2 := by
  have hk2 : (k == k2) = false := beq_eq_false_iff_ne.mpr (Ne.symm h)
  induction m with
  | nil =>
    simp [setKey, lookupKV, List.find?, hk2]
  | cons p rest ih =>
    rw [setKey]
    by_cases hp : p.1 == k
    · have hp1 : p.1 = k := by simpa using hp
      rw [if_pos hp, lookupKV_cons, lookupKV_cons]
      have hpk2 : (p.1 == k2) = false := by rw [hp1]; exact hk2
      simp [hk2, hpk2]
    · rw [if_neg hp, lookupKV_cons, lookupKV_cons]
      by_cases hpk2 : p.1 == k2
      · simp [hpk2]
      · simp [hpk2, ih]

/-- A key no override mentions keeps its value across the kwargs merge. -/
theorem lookupKV_applyKwargs_not_mem (allowed : List String)
    (kw post : List (String × String)) (k : String) (h : k ∉ kw.map Prod.fst) :
    lookupKV (applyKwargs allowed post kw).1 k = lookupKV post k := by
  induction kw generalizing post with
  | nil => rfl
  | cons p rest ih =>
    simp only [List.map_cons, List.mem_cons, not_or] at h
    rw [applyKwargs]
    split
    · rw [ih _ h.2, lookupKV_setKey_ne _ _ _ _ h.1]
    · exact ih _ h.2

/-- Every operation's whitelist contains the four retry-control keys. -/
theorem retry_keys_allowed (op : Operation) : retry_keys ⊆ allowedKeys op := by
  cases op <;> (intro a ha; simp [allowedKeys, retry_keys] at ha ⊢; tauto)

/-- Every operation's default map carries the token and content keys. -/
theorem token_content_in_defaults (op : Operation) (tok : String) (a : OpArgs) :
    "token" ∈ (defaultParams tok a op).map Prod.fst ∧
      "content" ∈ (defaultParams tok a op).map Prod.fst := by
  cases op <;> simp [defaultParams]

/-- C1: for every call through the retry controller with effective attempt
limit L at least 1, initial delay W at least 0 and a wrapped attempt
function failing on its first K invocations (by returning boolean false or
raising) and succeeding on invocation K + 1: when K < L the call returns
the success outcome after exactly K + 1 invocations; when K is at least L
it returns the L-th invocation's outcome verbatim (even a failing one,
a raised fault propagating), after exactly L invocations and L - 1
inter-attempt sleeps whose delays form the sequence W, W times the
backoff, W times the backoff squared, and so on: each delay is the
previous one multiplied by the backoff factor. -/
theorem retry_controller_attempt_semantics (b : Nat) (f : Nat → Attempt) (L W K : Nat)
    (hL : 1 ≤ L)
    (hfail : ∀ i, i < K → isFail (f i) = true)
    (hsucc : isFail (f K) = false) :
    (K < L → f_retry_loop b f L W 0 =
      ⟨f K, (List.range K).map (fun i => W * b ^ i), K + 1⟩)
  ∧ (L ≤ K → f_retry_loop b f L W 0 =
      ⟨f (L - 1), (List.range (L - 1)).map (fun i => W * b ^ i), L⟩) := by
  constructor
  · intro hKL
    have h := f_retry_loop_success b f K L W 0 hKL
      (fun i hi => by simpa using hfail i hi) (by simpa using hsucc)
    simpa using h
  · intro hLK
    obtain ⟨n, rfl⟩ : ∃ n, L = n + 1 := ⟨L - 1, by omega⟩
    have h := f_retry_loop_all_fail b f n W 0
      (fun i hi => by simpa using hfail i (by omega))
    simpa using h

/-- Witness for C1: two raised faults then a success, limit 5 and initial
delay 3, give the success on the third invocation after sleeping 3 and 6
seconds. -/
theorem retry_controller_attempt_semantics_witness :
    f_retry_loop 2 (fun i => if i < 2 then Attempt.exn else Attempt.val (PyVal.bool true))
        5 3 0 =
      ⟨(fun i => if i < 2 then Attempt.exn else Attempt.val (PyVal.bool true)) 2,
        (List.range 2).map (fun i => 3 * 2 ^ i), 2 + 1⟩ :=
  (retry_controller_attempt_semantics 2
    (fun i => if i < 2 then Attempt.exn else Attempt.val (PyVal.bool true)) 5 3 2
    (by decide) (by decide) (by decide)).1 (by decide)

/-- C8: the retry controller makes no distinction between the two failure
modes of the wrapped attempt: for two wrapped functions that on each
invocation either both succeed with the same value or fail, one by
returning boolean false and the other by raising a fault, the controller
performs the identical sequence of sleeps and the identical number of
invocations, consuming one retry per failure in both cases. -/
theorem retry_failure_modes_equivalent (b : Nat) (g1 g2 : Nat → Attempt) (L W : Nat)
    (h : ∀ i, (g1 i = Attempt.val (PyVal.bool false) ∧ g2 i = Attempt.exn) ∨
      (g1 i = g2 i ∧ isFail (g1 i) = false)) :
    (f_retry_loop b g1 L W 0).sleeps = (f_retry_loop b g2 L W 0).sleeps ∧
      (f_retry_loop b g1 L W 0).calls = (f_retry_loop b g2 L W 0).calls :=
  f_retry_loop_fail_modes b g1 g2 L W 0 h

/-- Witness for C8: a first attempt failing by returned False in one run
and by a raised fault in the other, then equal successes, give equal
sleeps and call counts. -/
theorem retry_failure_modes_equivalent_witness :
    (f_retry_loop 2 (fun i => if i = 0 then Attempt.val (PyVal.bool false)
        else Attempt.val (PyVal.str "ok")) 3 1 0).sleeps =
      (f_retry_loop 2 (fun i => if i = 0 then Attempt.exn
        else Attempt.val (PyVal.str "ok")) 3 1 0).sleeps ∧
    (f_retry_loop 2 (fun i => if i = 0 then Attempt.val (PyVal.bool false)
        else Attempt.val (PyVal.str "ok")) 3 1 0).calls =
      (f_retry_loop 2 (fun i => if i = 0 then Attempt.exn
        else Attempt.val (PyVal.str "ok")) 3 1 0).calls :=
  retry_failure_modes_equivalent 2 _ _ 3 1 (fun i => by
    match i with
    | 0 => exact Or.inl ⟨rfl, rfl⟩
    | n + 1 => exact Or.inr ⟨rfl, rfl⟩)

/-- C10: although backoff is a retry-control key every operation's
whitelist accepts, a caller-supplied backoff value never reaches the
retry loop: the wrapper's behaviour is unchanged under any backoff
override, and the inter-attempt delays are always the initial delay
multiplied by powers of the decorator's fixed default factor 2 (the line
reading backoff from kwargs is commented out in the source). -/
theorem backoff_override_ignored (kw : RetryKwargs) (v : Option Nat) (f : Nat → Attempt) :
    f_retry_wrapper { kw with backoff := v } f = f_retry_wrapper kw f
  ∧ (∀ op : Operation, "backoff" ∈ allowedKeys op)
  ∧ (f_retry_wrapper kw f).sleeps =
      (List.range (f_retry_wrapper kw f).sleeps.length).map
        (fun i => kw.wait_secs.getD 3 * 2 ^ i) := by
  refine ⟨rfl, ?_, ?_⟩
  · intro op
    cases op <;> decide
  · obtain ⟨k, hk⟩ :=
      f_retry_loop_sleeps_geom_aux 2 f (kw.limit.getD 4) (kw.wait_secs.getD 3) 0
    show (f_retry_loop 2 f (kw.limit.getD 4) (kw.wait_secs.getD 3) 0).sleeps =
      (List.range
          (f_retry_loop 2 f (kw.limit.getD 4) (kw.wait_secs.getD 3) 0).sleeps.length).map
        (fun i => kw.wait_secs.getD 3 * 2 ^ i)
    rw [hk, List.length_map, List.length_range]

/-- C2: a response with status 400 whose JSON body's error field equals the
literal no-file-to-delete message is classified as boolean True rather
than a failure, whatever the file flags; hence two delete-file calls for
an already deleted file, both receiving such a response, both return
True. -/
theorem delete_file_400_no_file_true (t1 t2 : String) (if1 df1 if2 df2 : Bool)
    (h1 : is_no_file_error t1 = true) (h2 : is_no_file_error t2 = true) :
    core_api_code 400 t1 if1 df1 = PyVal.bool true ∧
      core_api_code 400 t2 if2 df2 = PyVal.bool true := by
  constructor
  · simp [core_api_code, h1]
  · simp [core_api_code, h2]

/-- Witness for C2: the exact 400 body of an already-deleted file, with and
without a space after the colon, is classified True on a delete-file
call, twice. -/
theorem delete_file_400_no_file_true_witness :
    core_api_code 400 "\x7b\"error\":\"There is no file to delete for this record\"\x7d"
        false true = PyVal.bool true ∧
      core_api_code 400 "\x7b\"error\": \"There is no file to delete for this record\"\x7d"
        false true = PyVal.bool true :=
  delete_file_400_no_file_true _ _ false true false true rfl rfl

/-- C7: a 200 response whose non-empty body equals the first URL substring
the pattern scan finds is returned as that exact string, whatever the
file flags and regardless of whether the body would also parse as JSON:
the URL check runs before the empty-body and JSON-parse steps. -/
theorem survey_url_body_classification (text : String) (impf delf : Bool)
    (hne : text ≠ "") (hurl : find_url text = text) :
    core_api_code 200 text impf delf = PyVal.str text := by
  unfold core_api_code
  rw [if_neg (by simp), if_neg (by simp), if_pos ⟨hne, hurl⟩]

/-- Witness for C7: the example survey link body is classified as exactly
that string. -/
theorem survey_url_body_classification_witness :
    core_api_code 200 "https://example.org/survey/ABC" false false =
      PyVal.str "https://example.org/survey/ABC" :=
  survey_url_body_classification "https://example.org/survey/ABC" false false
    (by decide) rfl

/-- C3: a successfully constructed client's externally visible token is the
first 3 characters of the raw token, the fixed mask, and the last 2
characters (with Python's clamping slices), so at most 5 characters of
the raw token are revealed, while the raw token is retained unchanged in
the private field. -/
theorem token_masking_spec (is_url : String → Bool) (t u : String) (c : Redcapy)
    (hc : mkRedcapy is_url t u = Except.ok c) :
    c.api_token = String.mk (t.data.take 3 ++ "***...***".data ++
        t.data.drop (t.data.length - 2))
  ∧ (t.data.take 3).length + (t.data.drop (t.data.length - 2)).length ≤ 5
  ∧ c._redcap_token = t := by
  unfold mkRedcapy at hc
  by_cases h1 : t = ""
  · rw [if_pos h1] at hc
    exact Except.noConfusion hc
  · rw [if_neg h1] at hc
    by_cases h2 : is_url u = true
    · rw [if_pos h2] at hc
      injection hc with h
      subst h
      refine ⟨rfl, ?_, rfl⟩
      simp only [List.length_take, List.length_drop]
      omega
    · rw [if_neg h2] at hc
      exact Except.noConfusion hc

/-- Witness for C3: the token ABCDEF is masked to ABC followed by the mask
and EF, and kept raw in the private field. -/
theorem token_masking_spec_witness :
    (Redcapy.mk (check_and_mask_token "ABCDEF") "ABCDEF"
        "https://redcap.example.org/api/").api_token =
      String.mk ("ABCDEF".data.take 3 ++ "***...***".data ++
        "ABCDEF".data.drop ("ABCDEF".data.length - 2))
  ∧ ("ABCDEF".data.take 3).length +
      ("ABCDEF".data.drop ("ABCDEF".data.length - 2)).length ≤ 5
  ∧ (Redcapy.mk (check_and_mask_token "ABCDEF") "ABCDEF"
      "https://redcap.example.org/api/")._redcap_token = "ABCDEF" :=
  token_masking_spec checkers_is_url "ABCDEF" "https://redcap.example.org/api/" _ rfl

/-- C4: construction succeeds exactly when the token is non-empty and the
URL passes the well-formedness check; an empty token or a failing URL
raises the corresponding validation error synchronously (construction
performs no network call: it is a pure function of its arguments). -/
theorem constructor_validation_spec (is_url : String → Bool) (t u : String) :
    ((∃ c, mkRedcapy is_url t u = Except.ok c) ↔ t ≠ "" ∧ is_url u = true)
  ∧ (t = "" → mkRedcapy is_url t u =
      Except.error "Must provide token to initialize Redcapy instance")
  ∧ (t ≠ "" → is_url u = false → mkRedcapy is_url t u =
      Except.error ("Invalid URL format detected for \"" ++ u ++
        "\" when initializing Redcapy instance")) := by
  unfold mkRedcapy
  by_cases h1 : t = ""
  · simp [h1]
  · by_cases h2 : is_url u = true
    · simp [h1, h2]
    · have h2f : is_url u = false := by simpa using h2
      simp [h1, h2f]

/-- Witness for C4: a non-empty token with a well-formed URL constructs; an
empty token and a bare domain without a scheme each raise their
validation error. -/
theorem constructor_validation_spec_witness :
    (∃ c, mkRedcapy checkers_is_url "abc123" "https://redcap.example.org/api/" =
        Except.ok c)
  ∧ mkRedcapy checkers_is_url "" "https://redcap.example.org/api/" =
      Except.error "Must provide token to initialize Redcapy instance"
  ∧ mkRedcapy checkers_is_url "abc123" "redcap.example.org" =
      Except.error ("Invalid URL format detected for \"" ++ "redcap.example.org" ++
        "\" when initializing Redcapy instance") :=
  ⟨(constructor_validation_spec checkers_is_url "abc123"
      "https://redcap.example.org/api/").1.mpr ⟨by decide, by decide⟩,
   (constructor_validation_spec checkers_is_url ""
      "https://redcap.example.org/api/").2.1 rfl,
   (constructor_validation_spec checkers_is_url "abc123" "redcap.example.org").2.2
      (by decide) (by decide)⟩

/-- C5: for every operation, a caller-supplied override key outside the
operation's allowed set (a set that always contains the retry-control
keys limit, wait_secs, backoff and logger) is dropped, leaving the
transmitted parameter map exactly as it is without that override, and the
warning line naming the key is printed, while a whitelisted key replaces
or adds its value; the assembled map always carries the token and content
keys, and the merge always completes with a map to transmit. -/
theorem whitelist_builder_spec (op : Operation) (tok : String) (a : OpArgs)
    (kw : List (String × String)) (k v kg vg : String)
    (hk : k ∉ allowedKeys op) (hg : kg ∈ allowedKeys op)
    (hgkw : kg ∉ kw.map Prod.fst) :
    (buildPostData op tok a ((k, v) :: kw)).1 = (buildPostData op tok a kw).1
  ∧ (k ++ " is not a valid key") ∈ (buildPostData op tok a ((k, v) :: kw)).2
  ∧ lookupKV (buildPostData op tok a ((kg, vg) :: kw)).1 kg = some vg
  ∧ "token" ∈ (buildPostData op tok a kw).1.map Prod.fst
  ∧ "content" ∈ (buildPostData op tok a kw).1.map Prod.fst
  ∧ retry_keys ⊆ allowedKeys op := by
  have hkf : (k ∈ allowedKeys op) = False := eq_false hk
  have hgt : (kg ∈ allowedKeys op) = True := eq_true hg
  refine ⟨?_, ?_, ?_, ?_, ?_, retry_keys_allowed op⟩
  · simp [buildPostData, applyKwargs, hkf]
  · simp [buildPostData, applyKwargs, hkf]
  · simp only [buildPostData, applyKwargs, hgt, if_true]
    rw [lookupKV_applyKwargs_not_mem _ _ _ _ hgkw, lookupKV_setKey_self]
  · exact keys_applyKwargs_superset _ _ _ _ (token_content_in_defaults op tok a).1
  · exact keys_applyKwargs_superset _ _ _ _ (token_content_in_defaults op tok a).2


/-- Witness for C5: on export_records, a bogus key is warned about and a
whitelisted rawOrLabel override lands in the transmitted map. -/
theorem whitelist_builder_spec_witness :
    lookupKV (buildPostData Operation.export_records "TOK" {}
      [("rawOrLabel", "label")]).1 "rawOrLabel" = some "label"
  ∧ ("bogus_key is not a valid key") ∈
      (buildPostData Operation.export_records "TOK" {} [("bogus_key", "1")]).2 := by
  have h := whitelist_builder_spec Operation.export_records "TOK" {} [] "bogus_key" "1"
    "rawOrLabel" "label" (by decide) (by decide) (by simp)
  exact ⟨h.2.2.1, h.2.1⟩

/-- C6: for import_records with resolved format json, a data_to_upload
string not beginning with a bracket that parses as JSON is transmitted as
the dump of the one-element array around the parsed value; a string
beginning with a bracket is transmitted untouched. -/
theorem import_records_autowrap (tok d : String) (kw : List (String × String)) (v : J)
    (hfmt : lookupKV (import_records_merged tok d kw) "format" = some "json") :
    (d.take 1 ≠ "[" → loads d = some v →
      lookupKV (import_records_post tok d kw) "data" = some (dumps (J.arr [v])))
  ∧ (d.take 1 = "[" → "data" ∉ kw.map Prod.fst →
      lookupKV (import_records_post tok d kw) "data" = some d) := by
  constructor
  · intro hbr hp
    rw [import_records_post, if_pos hfmt, if_pos hbr, hp]
    exact lookupKV_setKey_self _ _ _
  · intro hbr hnd
    rw [import_records_post, if_pos hfmt, if_neg (by simp [hbr])]
    rw [import_records_merged, lookupKV_applyKwargs_not_mem _ _ _ _ hnd]
    rfl

/-- Witness for C6: a single JSON object record is transmitted wrapped in a
one-element array. -/
theorem import_records_autowrap_witness :
    lookupKV (import_records_post "TOK" "\x7b\"a\": 1\x7d" []) "data" =
      some (dumps (J.arr [J.obj [("a", J.num 1)]])) :=
  (import_records_autowrap "TOK" "\x7b\"a\": 1\x7d" [] (J.obj [("a", J.num 1)])
    (by rfl)).1 (by decide) (by rfl)

/-- C9: every invocation of file export reports a failure value without any
network call: the export_file method's body is pass, returning Python's
None (a falsy value) and issuing no request, and the import_file path
with an export action override returns False before any core call. -/
theorem export_file_unimplemented (record_id fieldname eventname : String)
    (repeat_instance : Option String) (net : PyVal) (kw : List (String × String))
    (hkw : lookupKV kw "action" = some "export") :
    export_file record_id fieldname eventname repeat_instance = (PyVal.pynone, 0)
  ∧ isFalsy (export_file record_id fieldname eventname repeat_instance).1 = true
  ∧ import_file_call net kw = (PyVal.bool false, 0)
  ∧ isFalsy (import_file_call net kw).1 = true := by
  refine ⟨rfl, rfl, ?_, ?_⟩
  · simp [import_file_call, import_file_dispatch, hkw]
  · simp [import_file_call, import_file_dispatch, hkw, isFalsy]

/-- Witness for C9: a concrete export call returns None with zero requests,
and import_file with an export action returns False with zero requests. -/
theorem export_file_unimplemented_witness :
    export_file "1" "f" "e" Option.none = (PyVal.pynone, 0)
  ∧ isFalsy (export_file "1" "f" "e" Option.none).1 = true
  ∧ import_file_call (PyVal.bool true) [("action", "export")] = (PyVal.bool false, 0)
  ∧ isFalsy (import_file_call (PyVal.bool true) [("action", "export")]).1 = true :=
  export_file_unimplemented "1" "f" "e" Option.none (PyVal.bool true)
    [("action", "export")] rfl

end DataWrangler
